import Mathlib

/-!
Verification development for the Chasing-Your-Tail-NG sliding-window
tracking engine.  The definitions below are a shallow embedding of the
Python sources:

* `secure_main_logic.py` — `SecureCYTMonitor` (window buckets, ignore
  filtering, detection, rotation);
* `secure_database.py`  — `KismetDB` query helpers (time-range queries,
  probe extraction);
* `events.py`           — event record encoding/decoding.

Python sets of strings are modelled as `List String` (deduplication is
irrelevant to every property proved here, which only depends on
membership and on which elements are produced); Python `str.upper()` is
modelled on the ASCII letters (`Char.toUpper`), which covers MAC
addresses (hex digits and colons) exactly; a database query that may
raise is modelled by an `Option` result, `none` standing for a raised
exception.
-/

/-- Python `str.upper()` restricted to ASCII letters: uppercase every
character of the string with `Char.toUpper`. -/
def pyUpper (s : String) : String :=
  ⟨s.data.map Char.toUpper⟩

/-! ## events.py -/

/-- Model of a Python `datetime` value: calendar fields plus a
microsecond component (dropped by the `'%m/%d/%Y %H:%M:%S'` format). -/
structure PyDateTime where
  year : Nat
  month : Nat
  day : Nat
  hour : Nat
  minute : Nat
  second : Nat
  microsecond : Nat
deriving DecidableEq, Repr

/-- Number of days in a month, as validated by the Python `datetime`
constructor (Gregorian leap years). -/
def days_in_month (y m : Nat) : Nat :=
  if m = 2 then
    (if (y % 4 = 0 ∧ y % 100 ≠ 0) ∨ y % 400 = 0 then 29 else 28)
  else if m = 4 ∨ m = 6 ∨ m = 9 ∨ m = 11 then 30
  else 31

/-- A `PyDateTime` whose fields satisfy the invariants the Python
`datetime` constructor enforces. -/
def ValidPyDateTime (t : PyDateTime) : Prop :=
  1 ≤ t.year ∧ t.year ≤ 9999 ∧
  1 ≤ t.month ∧ t.month ≤ 12 ∧
  1 ≤ t.day ∧ t.day ≤ days_in_month t.year t.month ∧
  t.hour ≤ 23 ∧ t.minute ≤ 59 ∧ t.second ≤ 59

instance (t : PyDateTime) : Decidable (ValidPyDateTime t) := by
  unfold ValidPyDateTime; infer_instance

/-- The decimal digit character for `d` (`0` – `9`). -/
def digitChar (d : Nat) : Char :=
  Char.ofNat (48 + d)

/-- Two-digit zero-padded decimal rendering (`strftime` `%m`, `%d`,
`%H`, `%M`, `%S`). -/
def pad2 (n : Nat) : List Char :=
  [digitChar (n / 10 % 10), digitChar (n % 10)]

/-- Four-digit decimal rendering of a year (`strftime` `%Y`; years in
`[1000, 9999]` render as exactly four digits). -/
def pad4 (n : Nat) : List Char :=
  [digitChar (n / 1000 % 10), digitChar (n / 100 % 10),
   digitChar (n / 10 % 10), digitChar (n % 10)]

/-- Embedding of `timestamp.strftime('%m/%d/%Y %H:%M:%S')` from `events.py`
`encode_event`. -/
def strftime_timestamp (t : PyDateTime) : String :=
  ⟨pad2 t.month ++ '/' :: pad2 t.day ++ '/' :: pad4 t.year ++
   ' ' :: pad2 t.hour ++ ':' :: pad2 t.minute ++ ':' :: pad2 t.second⟩

/-- Value of a decimal digit character, `none` if not a digit. -/
def digitVal (c : Char) : Option Nat :=
  if c.isDigit then some (c.toNat - 48) else none

/-- Read a two-digit decimal number. -/
def read2 (a b : Char) : Option Nat := do
  let x ← digitVal a
  let y ← digitVal b
  pure (10 * x + y)

/-- Read a four-digit decimal number. -/
def read4 (a b c d : Char) : Option Nat := do
  let x ← digitVal a
  let y ← digitVal b
  let z ← digitVal c
  let w ← digitVal d
  pure (1000 * x + 100 * y + 10 * z + w)

/-- Embedding of `datetime.strptime(s, '%m/%d/%Y %H:%M:%S')` from `events.py`
`decode_event`, on the fixed-width strings that `strftime` with the same
format produces; a raised `ValueError` (bad shape or field out of the
ranges the `datetime` constructor accepts) is modelled as `none`.  The
reconstructed value has microsecond `0`, as in Python. -/
def strptime_timestamp (s : String) : Option PyDateTime :=
  match s.data with
  | [m1, m2, '/', d1, d2, '/', y1, y2, y3, y4, ' ', h1, h2, ':', n1, n2, ':', s1, s2] => do
    let mo ← read2 m1 m2
    let dy ← read2 d1 d2
    let yr ← read4 y1 y2 y3 y4
    let hr ← read2 h1 h2
    let mi ← read2 n1 n2
    let se ← read2 s1 s2
    if 1 ≤ yr ∧ yr ≤ 9999 ∧ 1 ≤ mo ∧ mo ≤ 12 ∧
       1 ≤ dy ∧ dy ≤ days_in_month yr mo ∧
       hr ≤ 23 ∧ mi ≤ 59 ∧ se ≤ 59 then
      some ⟨yr, mo, dy, hr, mi, se, 0⟩
    else
      none
  | _ => none

/-- Model of `events.py` `SSIDProbeEvent`: timestamp, probed SSID, source MAC. -/
structure SSIDProbeEvent where
  timestamp : PyDateTime
  ssid : String
  mac : String
deriving DecidableEq, Repr

/-- The JSON object produced by `events.py` `encode_event` for an
`SSIDProbeEvent`: fields `type`, `ssid`, `mac`, `timestamp`. -/
structure EncodedRecord where
  type : String
  ssid : String
  mac : String
  timestamp : String
deriving DecidableEq, Repr

/-- Embedding of `events.py` `encode_event` on an `SSIDProbeEvent`. -/
def encode_event (e : SSIDProbeEvent) : EncodedRecord :=
  { type := "ssid-probe", ssid := e.ssid, mac := e.mac,
    timestamp := strftime_timestamp e.timestamp }

/-- Embedding of `events.py` `decode_event`: parse the timestamp, then dispatch on
the `type` field; a raised error (unparsable timestamp or unknown type)
is modelled as `none`. -/
def decode_event (r : EncodedRecord) : Option SSIDProbeEvent := do
  let t ← strptime_timestamp r.timestamp
  if r.type = "ssid-probe" then
    pure { timestamp := t, ssid := r.ssid, mac := r.mac }
  else
    none

/-! ## secure_database.py -/

/-- Shape of the nested value stored under
`'dot11.device.last_probed_ssid_record'` inside a device's parsed JSON:
the key may be missing (`.get` then yields `{}`, whose own `.get` yields
`''`), may hold a non-dict (the `isinstance` check fails), or may hold a
dict carrying the probed SSID string (missing or non-string SSID values
behave like the missing-key case for every property proved here, since
both are screened out before use). -/
inductive ProbeRecordVal where
  | missing
  | nonDict
  | dict (ssid : String)
deriving DecidableEq, Repr

/-- Shape of the value stored under `'dot11.device'` inside a device's
parsed JSON. -/
inductive Dot11DeviceVal where
  | missing
  | nonDict
  | dict (probe_record : ProbeRecordVal)
deriving DecidableEq, Repr

/-- Shape of a row's parsed `device` JSON column: `falsy` models `None`
(NULL column or a JSON parse failure) as well as any falsy value such as
`{}`; `truthyNonDict` models a truthy non-dict JSON value (e.g. a
non-empty list), on which `.get` raises `AttributeError`; `dict` models
a JSON object. -/
inductive DeviceDataVal where
  | falsy
  | truthyNonDict
  | dict (dot11_device : Dot11DeviceVal)
deriving DecidableEq, Repr

/-- A row as returned by `KismetDB.get_devices_by_time_range`: the
`devmac` column (empty string modelling a falsy MAC), the parsed
`device` JSON column and the `last_time` unix timestamp. -/
structure DeviceRow where
  devmac : String
  device_data : DeviceDataVal
  last_time : Int
deriving DecidableEq, Repr

/-- An entry of `KismetDB.get_probe_requests_by_time_range`. -/
structure ProbeEntry where
  mac : String
  ssid : String
  timestamp : Int
deriving DecidableEq, Repr

/-- Embedding of `KismetDB.get_devices_by_time_range`: the SQL filter is
`last_time >= start_time` and, when an end bound is given,
`last_time <= end_time` — a closed interval at both ends. -/
def get_devices_by_time_range (db : List DeviceRow) (start_time : Int)
    (end_time : Option Int) : List DeviceRow :=
  db.filter fun r =>
    decide (start_time ≤ r.last_time) &&
      (match end_time with
       | some e => decide (r.last_time ≤ e)
       | none => true)

/-- Embedding of `KismetDB.get_mac_addresses_by_time_range`: the `mac` field of each
row in range, keeping only truthy (non-empty) MACs. -/
def get_mac_addresses_by_time_range (db : List DeviceRow) (start_time : Int)
    (end_time : Option Int) : List String :=
  (get_devices_by_time_range db start_time end_time).filterMap fun d =>
    if d.devmac = "" then none else some d.devmac

/-- The probed-SSID extraction chain shared verbatim by
`KismetDB.get_probe_requests_by_time_range` (lines 119–141) and
`SecureCYTMonitor.__process_probe_requests` (lines 144–158):
`device_data.get('dot11.device', {})`, the `isinstance` dict checks,
`probe_record.get('dot11.probedssid.ssid', '')`, and the final
truthiness test on the SSID.  `none` covers every path that yields no
usable SSID, including the `AttributeError` raised on a truthy non-dict
`device_data` and caught by both callers. -/
def extract_probe_ssid (dd : DeviceDataVal) : Option String :=
  match dd with
  | .falsy => none
  | .truthyNonDict => none
  | .dict d =>
    match d with
    | .missing => none
    | .nonDict => none
    | .dict pr =>
      match pr with
      | .missing => none
      | .nonDict => none
      | .dict ssid => if ssid = "" then none else some ssid

/-- Embedding of `KismetDB.get_probe_requests_by_time_range`: one `(mac, ssid,
timestamp)` entry per in-range row with a usable probed SSID. -/
def get_probe_requests_by_time_range (db : List DeviceRow) (start_time : Int)
    (end_time : Option Int) : List ProbeEntry :=
  (get_devices_by_time_range db start_time end_time).filterMap fun d =>
    (extract_probe_ssid d.device_data).map fun ssid =>
      { mac := d.devmac, ssid := ssid, timestamp := d.last_time }

/-- The timestamps returned by `SecureTimeWindows.get_time_boundaries`:
`now` minus 5/10/15/20/2 minutes respectively; modelled as arbitrary
unix timestamps. -/
structure TimeBoundaries where
  recent_time : Int
  medium_time : Int
  old_time : Int
  oldest_time : Int
  current_time : Int
deriving DecidableEq, Repr

/-! ## secure_main_logic.py -/

/-- Age band of a window bucket. -/
inductive Band where
  | pastFive
  | fiveTen
  | tenFifteen
  | fifteenTwenty
deriving DecidableEq, Repr

/-- An event emitted while processing current activity: the
`SSIDProbeEvent` written to the event log by
`__process_probe_requests`, a repeated-probe detection logged by
`__check_ssid_history`, or a device-reappeared detection logged by
`__process_mac_tracking`. -/
inductive MonitorEvent where
  | ssidProbe (ssid mac : String)
  | repeatedProbe (ssid : String) (band : Band)
  | reappeared (mac : String) (band : Band)
deriving DecidableEq, Repr

/-- Is this event a Probe Event (as opposed to a Detection Event)? -/
def MonitorEvent.isProbe : MonitorEvent → Bool
  | .ssidProbe _ _ => true
  | _ => false

/-- The mutable state of `SecureCYTMonitor`: the two ignore sets fixed
at construction and the eight window buckets (four MAC bands, four SSID
bands). -/
structure MonitorState where
  ignore_list : List String
  ssid_ignore_list : List String
  past_five_mins_macs : List String
  five_ten_min_ago_macs : List String
  ten_fifteen_min_ago_macs : List String
  fifteen_twenty_min_ago_macs : List String
  past_five_mins_ssids : List String
  five_ten_min_ago_ssids : List String
  ten_fifteen_min_ago_ssids : List String
  fifteen_twenty_min_ago_ssids : List String
deriving DecidableEq, Repr

/-- The four MAC buckets, newest first. -/
def mac_buckets (st : MonitorState) : List (List String) :=
  [st.past_five_mins_macs, st.five_ten_min_ago_macs,
   st.ten_fifteen_min_ago_macs, st.fifteen_twenty_min_ago_macs]

/-- The four SSID buckets, newest first. -/
def ssid_buckets (st : MonitorState) : List (List String) :=
  [st.past_five_mins_ssids, st.five_ten_min_ago_ssids,
   st.ten_fifteen_min_ago_ssids, st.fifteen_twenty_min_ago_ssids]

/-- Embedding of `SecureCYTMonitor.__init__`: the MAC ignore list is uppercased as it
is stored, the SSID ignore list is stored as given; the eight buckets
start out as the empty class-level sets. -/
def mkSecureCYTMonitor (ignore_list ssid_ignore_list : List String) : MonitorState :=
  { ignore_list := ignore_list.map pyUpper
    ssid_ignore_list := ssid_ignore_list
    past_five_mins_macs := []
    five_ten_min_ago_macs := []
    ten_fifteen_min_ago_macs := []
    fifteen_twenty_min_ago_macs := []
    past_five_mins_ssids := []
    five_ten_min_ago_ssids := []
    ten_fifteen_min_ago_ssids := []
    fifteen_twenty_min_ago_ssids := [] }

/-- Embedding of `SecureCYTMonitor.__filter_macs`: uppercase every MAC and keep those
whose uppercasing is not in the (already uppercased) MAC ignore set. -/
def filter_macs (ignore_list : List String) (mac_list : List String) : List String :=
  mac_list.filterMap fun mac =>
    if pyUpper mac ∈ ignore_list then none else some (pyUpper mac)

/-- Embedding of `SecureCYTMonitor.__filter_ssids`: keep truthy (non-empty) SSIDs not
in the SSID ignore set (exact comparison, no case folding). -/
def filter_ssids (ssid_ignore_list : List String) (ssid_list : List String) : List String :=
  ssid_list.filter fun ssid =>
    decide (ssid ≠ "") && decide (ssid ∉ ssid_ignore_list)

/-- Embedding of `SecureCYTMonitor.initialize_tracking_lists` (via
`__initialize_mac_lists` and `__initialize_ssid_lists`): each bucket is
assigned the filtered result of the corresponding time-range query; the
newest band is bounded below only. -/
def initialize_tracking_lists (st : MonitorState) (db : List DeviceRow)
    (b : TimeBoundaries) : MonitorState :=
  { st with
    past_five_mins_macs := filter_macs st.ignore_list
      (get_mac_addresses_by_time_range db b.recent_time none)
    five_ten_min_ago_macs := filter_macs st.ignore_list
      (get_mac_addresses_by_time_range db b.medium_time (some b.recent_time))
    ten_fifteen_min_ago_macs := filter_macs st.ignore_list
      (get_mac_addresses_by_time_range db b.old_time (some b.medium_time))
    fifteen_twenty_min_ago_macs := filter_macs st.ignore_list
      (get_mac_addresses_by_time_range db b.oldest_time (some b.old_time))
    past_five_mins_ssids := filter_ssids st.ssid_ignore_list
      ((get_probe_requests_by_time_range db b.recent_time none).map ProbeEntry.ssid)
    five_ten_min_ago_ssids := filter_ssids st.ssid_ignore_list
      ((get_probe_requests_by_time_range db b.medium_time (some b.recent_time)).map ProbeEntry.ssid)
    ten_fifteen_min_ago_ssids := filter_ssids st.ssid_ignore_list
      ((get_probe_requests_by_time_range db b.old_time (some b.medium_time)).map ProbeEntry.ssid)
    fifteen_twenty_min_ago_ssids := filter_ssids st.ssid_ignore_list
      ((get_probe_requests_by_time_range db b.oldest_time (some b.old_time)).map ProbeEntry.ssid) }

/-- Embedding of `SecureCYTMonitor.rotate_tracking_lists`.  The three older MAC bands
and the three older SSID bands are shifted first (lines 200–207); only
then is the fresh MAC query issued, then the fresh probe query.  A
query that raises is modelled by `none`; the surrounding
`try`/`except` catches the exception after the statements already
executed have taken effect, so a failed MAC query leaves both newest
bands with their pre-rotation contents and skips the probe query, and a
failed probe query leaves only the newest SSID band with its
pre-rotation contents. -/
def rotate_tracking_lists (st : MonitorState) (fresh_macs : Option (List String))
    (fresh_probes : Option (List ProbeEntry)) : MonitorState :=
  let st1 := { st with
    fifteen_twenty_min_ago_macs := st.ten_fifteen_min_ago_macs
    ten_fifteen_min_ago_macs := st.five_ten_min_ago_macs
    five_ten_min_ago_macs := st.past_five_mins_macs
    fifteen_twenty_min_ago_ssids := st.ten_fifteen_min_ago_ssids
    ten_fifteen_min_ago_ssids := st.five_ten_min_ago_ssids
    five_ten_min_ago_ssids := st.past_five_mins_ssids }
  match fresh_macs with
  | none => st1
  | some macs =>
    let st2 := { st1 with past_five_mins_macs := filter_macs st.ignore_list macs }
    match fresh_probes with
    | none => st2
    | some probes =>
      { st2 with past_five_mins_ssids :=
          filter_ssids st.ssid_ignore_list (probes.map ProbeEntry.ssid) }

/-- Embedding of `SecureCYTMonitor.__check_ssid_history`: one repeated-probe
detection per older SSID band containing the SSID, in band order. -/
def check_ssid_history (st : MonitorState) (ssid : String) : List MonitorEvent :=
  (if ssid ∈ st.five_ten_min_ago_ssids then
     [MonitorEvent.repeatedProbe ssid Band.fiveTen] else []) ++
  (if ssid ∈ st.ten_fifteen_min_ago_ssids then
     [MonitorEvent.repeatedProbe ssid Band.tenFifteen] else []) ++
  (if ssid ∈ st.fifteen_twenty_min_ago_ssids then
     [MonitorEvent.repeatedProbe ssid Band.fifteenTwenty] else [])

/-- Embedding of `SecureCYTMonitor.__process_mac_tracking`: return early when the
uppercased MAC is ignore-listed, otherwise one device-reappeared
detection per older MAC band containing the MAC (compared as given,
without uppercasing), in band order. -/
def process_mac_tracking (st : MonitorState) (mac : String) : List MonitorEvent :=
  if pyUpper mac ∈ st.ignore_list then []
  else
    (if mac ∈ st.five_ten_min_ago_macs then
       [MonitorEvent.reappeared mac Band.fiveTen] else []) ++
    (if mac ∈ st.ten_fifteen_min_ago_macs then
       [MonitorEvent.reappeared mac Band.tenFifteen] else []) ++
    (if mac ∈ st.fifteen_twenty_min_ago_macs then
       [MonitorEvent.reappeared mac Band.fifteenTwenty] else [])

/-- Embedding of `SecureCYTMonitor.__process_probe_requests`: run the probed-SSID
extraction chain (any `KeyError`/`TypeError`/`AttributeError` it raises
is caught by this method's own handler, skipping just this sighting);
return early on a falsy or ignore-listed SSID; otherwise write the
`SSIDProbeEvent` to the event log first, then check the SSID against
the older SSID bands. -/
def process_probe_requests (st : MonitorState) (device_data : DeviceDataVal)
    (mac : String) : List MonitorEvent :=
  match extract_probe_ssid device_data with
  | none => []
  | some ssid =>
    if ssid ∈ st.ssid_ignore_list then []
    else MonitorEvent.ssidProbe ssid mac :: check_ssid_history st ssid

/-- The per-device body of the loop in
`SecureCYTMonitor.process_current_activity`: skip devices with a falsy
MAC, otherwise process probe requests, then MAC tracking. -/
def process_device (st : MonitorState) (d : DeviceRow) : List MonitorEvent :=
  if d.devmac = "" then []
  else process_probe_requests st d.device_data d.devmac ++
       process_mac_tracking st d.devmac

/-- The loop of `SecureCYTMonitor.process_current_activity` over the
current-activity rows, in source order. -/
def process_batch (st : MonitorState) : List DeviceRow → List MonitorEvent
  | [] => []
  | d :: ds => process_device st d ++ process_batch st ds

/-- Embedding of `SecureCYTMonitor.process_current_activity`: query the current
band (bounded below by `current_time` only) and process each row. -/
def process_current_activity (st : MonitorState) (db : List DeviceRow)
    (b : TimeBoundaries) : List MonitorEvent :=
  process_batch st (get_devices_by_time_range db b.current_time none)

/-- Monitor states reachable in a run: the state after
`initialize_tracking_lists` on a freshly constructed monitor, followed
by any sequence of rotations, each rotation fed by fresh query results
or by a raised query (`none`). -/
inductive Reachable (ignore_list ssid_ignore_list : List String) : MonitorState → Prop where
  | init (db : List DeviceRow) (b : TimeBoundaries) :
      Reachable ignore_list ssid_ignore_list
        (initialize_tracking_lists (mkSecureCYTMonitor ignore_list ssid_ignore_list) db b)
  | rot (st : MonitorState) (fresh_macs : Option (List String))
      (fresh_probes : Option (List ProbeEntry)) :
      Reachable ignore_list ssid_ignore_list st →
      Reachable ignore_list ssid_ignore_list
        (rotate_tracking_lists st fresh_macs fresh_probes)

/-! ## Spec-side definitions

The specification describes the band queries as half-open intervals
`[boundary_older, boundary_newer)`.  The following definitions follow
the spec's words (not the source) and exist only to be compared with
the source-derived definitions above. -/

/-- Devices whose timestamp lies in the half-open interval
`[start_time, end_time)` (upper bound exclusive), as the spec words the
band queries; the unbounded form matches the source. -/
def get_devices_by_time_range_halfopen (db : List DeviceRow) (start_time : Int)
    (end_time : Option Int) : List DeviceRow :=
  db.filter fun r =>
    decide (start_time ≤ r.last_time) &&
      (match end_time with
       | some e => decide (r.last_time < e)
       | none => true)

/-- MAC addresses of devices in the half-open interval, as the spec
words the band queries. -/
def get_mac_addresses_by_time_range_halfopen (db : List DeviceRow) (start_time : Int)
    (end_time : Option Int) : List String :=
  (get_devices_by_time_range_halfopen db start_time end_time).filterMap fun d =>
    if d.devmac = "" then none else some d.devmac

/-! ## Concrete sample inputs used by counterexamples and witnesses -/

/-- A monitor state with empty ignore sets and pairwise distinct
single-element buckets. -/
def sampleRotationState : MonitorState :=
  { ignore_list := []
    ssid_ignore_list := []
    past_five_mins_macs := ["AA"]
    five_ten_min_ago_macs := ["BB"]
    ten_fifteen_min_ago_macs := ["CC"]
    fifteen_twenty_min_ago_macs := ["DD"]
    past_five_mins_ssids := ["SA"]
    five_ten_min_ago_ssids := ["SB"]
    ten_fifteen_min_ago_ssids := ["SC"]
    fifteen_twenty_min_ago_ssids := ["SD"] }

/-- A database with a single device sighted exactly at the
`recent_time` boundary. -/
def sampleDb : List DeviceRow :=
  [{ devmac := "AA:BB:CC:DD:EE:FF", device_data := .falsy, last_time := 100 }]

/-- Boundaries with `recent = 100`, `medium = 50`, `old = 0`,
`oldest = -50`, `current = 130`. -/
def sampleBoundaries : TimeBoundaries :=
  { recent_time := 100, medium_time := 50, old_time := 0,
    oldest_time := -50, current_time := 130 }

/-- A current-activity row carrying a probe for `"CorpWiFi"`. -/
def sampleProbeRow : DeviceRow :=
  { devmac := "AA:BB", device_data := .dict (.dict (.dict "CorpWiFi")), last_time := 0 }

/-- A row whose `device` JSON is a truthy non-dict, so the probe parsing
chain raises `AttributeError` (caught per-sighting). -/
def sampleFaultyRow : DeviceRow :=
  { devmac := "AA:BB", device_data := .truthyNonDict, last_time := 0 }

/-- A well-formed row following the faulty one in a batch. -/
def sampleGoodRow : DeviceRow :=
  { devmac := "CC:DD", device_data := .falsy, last_time := 0 }

/-- A concrete SSID probe event with a whole-second timestamp. -/
def sampleProbeEvent : SSIDProbeEvent :=
  { timestamp := { year := 2024, month := 3, day := 15, hour := 10, minute := 30,
                   second := 45, microsecond := 0 }
    ssid := "CorpWiFi", mac := "AA:BB:CC:DD:EE:FF" }

/-! ## Helper lemmas -/

theorem char_toNat_ofNat (n : Nat) (h : n.isValidChar) : (Char.ofNat n).toNat = n := by
  unfold Char.ofNat
  rw [dif_pos h]
  rfl

theorem char_toUpper_idem (c : Char) : c.toUpper.toUpper = c.toUpper := by
  unfold Char.toUpper
  by_cases h : 97 ≤ c.toNat ∧ c.toNat ≤ 122
  · rw [if_pos h]
    have hv : (c.toNat - 32).isValidChar := Or.inl (by omega)
    have ht : (Char.ofNat (c.toNat - 32)).toNat = c.toNat - 32 := char_toNat_ofNat _ hv
    rw [if_neg]
    omega
  · rw [if_neg h, if_neg h]

theorem pyUpper_idem (s : String) : pyUpper (pyUpper s) = pyUpper s := by
  unfold pyUpper
  rw [show (String.mk (s.data.map Char.toUpper)).data = s.data.map Char.toUpper from rfl]
  rw [List.map_map]
  exact congrArg String.mk (List.map_congr_left fun a _ => char_toUpper_idem a)

theorem filter_macs_mem (ign ms : List String) (y : String) (hy : y ∈ filter_macs ign ms) :
    pyUpper y = y ∧ y ∉ ign := by
  unfold filter_macs at hy
  rw [List.mem_filterMap] at hy
  obtain ⟨m, _, hm⟩ := hy
  by_cases h : pyUpper m ∈ ign
  · rw [if_pos h] at hm
    exact absurd hm (by simp)
  · rw [if_neg h] at hm
    obtain rfl : pyUpper m = y := Option.some.inj hm
    exact ⟨pyUpper_idem m, h⟩

theorem filter_ssids_mem (ign ss : List String) (y : String) (hy : y ∈ filter_ssids ign ss) :
    y ≠ "" ∧ y ∉ ign := by
  unfold filter_ssids at hy
  rw [List.mem_filter] at hy
  simpa using hy.2

theorem process_batch_append (st : MonitorState) (l1 l2 : List DeviceRow) :
    process_batch st (l1 ++ l2) = process_batch st l1 ++ process_batch st l2 := by
  induction l1 with
  | nil => simp [process_batch]
  | cons a as ih => simp [process_batch, ih]

/-! ## Claim theorems -/

/-- C1 counterexample: on `sampleRotationState`, a rotation whose fresh
MAC query raises does NOT leave all eight buckets equal to their
pre-rotation contents — the `[5,10)` MAC band has already been
overwritten with the old `[0,5)` band when the exception is caught. -/
theorem rotation_failure_not_atomic_cex :
    (rotate_tracking_lists sampleRotationState none none).five_ten_min_ago_macs ≠
      sampleRotationState.five_ten_min_ago_macs := by
  decide

/-- C1 (amended): when the fresh MAC query raises during rotation, the
three older MAC bands and the three older SSID bands are still shifted
forward one step (the shift happens before any query), while the two
newest bands keep their pre-rotation contents; when the MAC query
succeeds and the fresh probe query raises, additionally the newest MAC
band is replaced by the filtered fresh result and only the newest SSID
band keeps its pre-rotation contents.  Failure is logged and the next
attempt occurs at the next scheduled rotation point. -/
theorem rotation_failure_shifts_old_bands_keeps_newest (st : MonitorState)
    (fresh_probes : Option (List ProbeEntry)) (macs : List String) :
    rotate_tracking_lists st none fresh_probes =
      { st with
        fifteen_twenty_min_ago_macs := st.ten_fifteen_min_ago_macs
        ten_fifteen_min_ago_macs := st.five_ten_min_ago_macs
        five_ten_min_ago_macs := st.past_five_mins_macs
        fifteen_twenty_min_ago_ssids := st.ten_fifteen_min_ago_ssids
        ten_fifteen_min_ago_ssids := st.five_ten_min_ago_ssids
        five_ten_min_ago_ssids := st.past_five_mins_ssids } ∧
    rotate_tracking_lists st (some macs) none =
      { st with
        fifteen_twenty_min_ago_macs := st.ten_fifteen_min_ago_macs
        ten_fifteen_min_ago_macs := st.five_ten_min_ago_macs
        five_ten_min_ago_macs := st.past_five_mins_macs
        past_five_mins_macs := filter_macs st.ignore_list macs
        fifteen_twenty_min_ago_ssids := st.ten_fifteen_min_ago_ssids
        ten_fifteen_min_ago_ssids := st.five_ten_min_ago_ssids
        five_ten_min_ago_ssids := st.past_five_mins_ssids } :=
  ⟨rfl, rfl⟩

/-- C3: one successful rotation shifts every band forward by one step —
the old `[15,20)` bands are discarded, each older band receives the
next-newer band's old contents, and the `[0,5)` bands become the
filtered fresh query results — for both MAC and SSID buckets, for every
starting state and every pair of source results. -/
theorem rotate_once_shifts_bands (st : MonitorState) (macs : List String)
    (probes : List ProbeEntry) :
    rotate_tracking_lists st (some macs) (some probes) =
      { st with
        fifteen_twenty_min_ago_macs := st.ten_fifteen_min_ago_macs
        ten_fifteen_min_ago_macs := st.five_ten_min_ago_macs
        five_ten_min_ago_macs := st.past_five_mins_macs
        past_five_mins_macs := filter_macs st.ignore_list macs
        fifteen_twenty_min_ago_ssids := st.ten_fifteen_min_ago_ssids
        ten_fifteen_min_ago_ssids := st.five_ten_min_ago_ssids
        five_ten_min_ago_ssids := st.past_five_mins_ssids
        past_five_mins_ssids := filter_ssids st.ssid_ignore_list (probes.map ProbeEntry.ssid) } :=
  rfl

/-- C5 counterexample: a device sighted exactly at the `recent_time`
boundary lands in the `[5,10)` MAC band as the code computes it (closed
interval `medium ≤ t ≤ recent`) but not in the spec's half-open
interval `[medium, recent)`, so the band does not equal the filtered
half-open query result. -/
theorem init_band_halfopen_cex :
    (initialize_tracking_lists (mkSecureCYTMonitor [] []) sampleDb sampleBoundaries).five_ten_min_ago_macs ≠
      filter_macs (mkSecureCYTMonitor [] []).ignore_list
        (get_mac_addresses_by_time_range_halfopen sampleDb
          sampleBoundaries.medium_time (some sampleBoundaries.recent_time)) := by
  decide

/-- C5 (amended): after initialization every band equals the
ignore-filtered result of the source query over the CLOSED interval
`[boundary_older, boundary_newer]` (both endpoints included; the newest
band is bounded below only), for all four MAC bands and all four SSID
bands, and re-running initialization on the resulting state with the
same source data and the same boundaries yields the identical state. -/
theorem init_bands_closed_interval_and_idempotent (st : MonitorState)
    (db : List DeviceRow) (b : TimeBoundaries) :
    (initialize_tracking_lists st db b).past_five_mins_macs =
      filter_macs st.ignore_list (get_mac_addresses_by_time_range db b.recent_time none) ∧
    (initialize_tracking_lists st db b).five_ten_min_ago_macs =
      filter_macs st.ignore_list (get_mac_addresses_by_time_range db b.medium_time (some b.recent_time)) ∧
    (initialize_tracking_lists st db b).ten_fifteen_min_ago_macs =
      filter_macs st.ignore_list (get_mac_addresses_by_time_range db b.old_time (some b.medium_time)) ∧
    (initialize_tracking_lists st db b).fifteen_twenty_min_ago_macs =
      filter_macs st.ignore_list (get_mac_addresses_by_time_range db b.oldest_time (some b.old_time)) ∧
    (initialize_tracking_lists st db b).past_five_mins_ssids =
      filter_ssids st.ssid_ignore_list
        ((get_probe_requests_by_time_range db b.recent_time none).map ProbeEntry.ssid) ∧
    (initialize_tracking_lists st db b).five_ten_min_ago_ssids =
      filter_ssids st.ssid_ignore_list
        ((get_probe_requests_by_time_range db b.medium_time (some b.recent_time)).map ProbeEntry.ssid) ∧
    (initialize_tracking_lists st db b).ten_fifteen_min_ago_ssids =
      filter_ssids st.ssid_ignore_list
        ((get_probe_requests_by_time_range db b.old_time (some b.medium_time)).map ProbeEntry.ssid) ∧
    (initialize_tracking_lists st db b).fifteen_twenty_min_ago_ssids =
      filter_ssids st.ssid_ignore_list
        ((get_probe_requests_by_time_range db b.oldest_time (some b.old_time)).map ProbeEntry.ssid) ∧
    initialize_tracking_lists (initialize_tracking_lists st db b) db b =
      initialize_tracking_lists st db b :=
  ⟨rfl, rfl, rfl, rfl, rfl, rfl, rfl, rfl, rfl⟩

/-- C6: a singleton MAC list filters to empty exactly when the
uppercased MAC is in the ignore set (case-insensitive membership); a
singleton SSID list filters to empty exactly when the SSID is in the
ignore set by exact byte comparison or is the empty string. -/
theorem filter_singleton_empty_iff (x : String) (S : List String) :
    (filter_macs S [x] = [] ↔ pyUpper x ∈ S) ∧
    (filter_ssids S [x] = [] ↔ (x ∈ S ∨ x = "")) := by
  constructor
  · unfold filter_macs
    by_cases h : pyUpper x ∈ S <;> simp [h, List.filterMap_cons]
  · unfold filter_ssids
    by_cases h : x = ""
    · simp [h]
    · by_cases h2 : x ∈ S <;> simp [h, h2, List.filter_cons]

theorem check_ssid_history_no_probe (st : MonitorState) (s : String) :
    ∀ e ∈ check_ssid_history st s, e.isProbe = false := by
  intro e he
  unfold check_ssid_history at he
  split_ifs at he <;>
    simp only [List.mem_append, List.mem_singleton, List.not_mem_nil, or_false,
      false_or, List.append_nil, List.nil_append] at he <;>
    first
    | exact he.elim
    | (rcases he with (rfl | rfl) | rfl <;> rfl)

theorem process_mac_tracking_no_probe (st : MonitorState) (m : String) :
    ∀ e ∈ process_mac_tracking st m, e.isProbe = false := by
  intro e he
  unfold process_mac_tracking at he
  split_ifs at he <;>
    simp only [List.mem_append, List.mem_singleton, List.not_mem_nil, or_false,
      false_or, List.append_nil, List.nil_append] at he <;>
    first
    | exact he.elim
    | (rcases he with (rfl | rfl) | rfl <;> rfl)

theorem reachable_state_invariant (ign ssign : List String) (st : MonitorState)
    (h : Reachable ign ssign st) :
    st.ignore_list = ign.map pyUpper ∧
    st.ssid_ignore_list = ssign ∧
    (∀ b ∈ mac_buckets st, ∀ y ∈ b, pyUpper y = y ∧ y ∉ ign.map pyUpper) ∧
    (∀ b ∈ ssid_buckets st, ∀ y ∈ b, y ≠ "" ∧ y ∉ ssign) := by
  induction h with
  | init db bo =>
    refine ⟨rfl, rfl, ?_, ?_⟩
    · intro b hb
      simp only [mac_buckets, initialize_tracking_lists, mkSecureCYTMonitor, List.mem_cons,
        List.not_mem_nil, or_false] at hb
      rcases hb with rfl | rfl | rfl | rfl <;>
        (intro y hy; exact filter_macs_mem _ _ y hy)
    · intro b hb
      simp only [ssid_buckets, initialize_tracking_lists, mkSecureCYTMonitor, List.mem_cons,
        List.not_mem_nil, or_false] at hb
      rcases hb with rfl | rfl | rfl | rfl <;>
        (intro y hy; exact filter_ssids_mem _ _ y hy)
  | rot st0 mq pq hr ih =>
    obtain ⟨hig, hsig, hmac, hssid⟩ := ih
    have hig2 : (rotate_tracking_lists st0 mq pq).ignore_list = st0.ignore_list := by
      unfold rotate_tracking_lists; cases mq <;> cases pq <;> rfl
    have hsig2 : (rotate_tracking_lists st0 mq pq).ssid_ignore_list = st0.ssid_ignore_list := by
      unfold rotate_tracking_lists; cases mq <;> cases pq <;> rfl
    refine ⟨hig2.trans hig, hsig2.trans hsig, ?_, ?_⟩
    · intro b hb
      cases mq with
      | none =>
        simp only [rotate_tracking_lists, mac_buckets, List.mem_cons, List.not_mem_nil,
          or_false] at hb
        rcases hb with rfl | rfl | rfl | rfl <;>
          (intro y hy; exact hmac _ (by simp [mac_buckets]) y hy)
      | some macs =>
        cases pq with
        | none =>
          simp only [rotate_tracking_lists, mac_buckets, List.mem_cons, List.not_mem_nil,
            or_false] at hb
          rcases hb with rfl | rfl | rfl | rfl
          · intro y hy
            have := filter_macs_mem _ _ y hy
            exact ⟨this.1, hig ▸ this.2⟩
          · intro y hy; exact hmac _ (by simp [mac_buckets]) y hy
          · intro y hy; exact hmac _ (by simp [mac_buckets]) y hy
          · intro y hy; exact hmac _ (by simp [mac_buckets]) y hy
        | some probes =>
          simp only [rotate_tracking_lists, mac_buckets, List.mem_cons, List.not_mem_nil,
            or_false] at hb
          rcases hb with rfl | rfl | rfl | rfl
          · intro y hy
            have := filter_macs_mem _ _ y hy
            exact ⟨this.1, hig ▸ this.2⟩
          · intro y hy; exact hmac _ (by simp [mac_buckets]) y hy
          · intro y hy; exact hmac _ (by simp [mac_buckets]) y hy
          · intro y hy; exact hmac _ (by simp [mac_buckets]) y hy
    · intro b hb
      cases mq with
      | none =>
        simp only [rotate_tracking_lists, ssid_buckets, List.mem_cons, List.not_mem_nil,
          or_false] at hb
        rcases hb with rfl | rfl | rfl | rfl <;>
          (intro y hy; exact hssid _ (by simp [ssid_buckets]) y hy)
      | some macs =>
        cases pq with
        | none =>
          simp only [rotate_tracking_lists, ssid_buckets, List.mem_cons, List.not_mem_nil,
            or_false] at hb
          rcases hb with rfl | rfl | rfl | rfl <;>
            (intro y hy; exact hssid _ (by simp [ssid_buckets]) y hy)
        | some probes =>
          simp only [rotate_tracking_lists, ssid_buckets, List.mem_cons, List.not_mem_nil,
            or_false] at hb
          rcases hb with rfl | rfl | rfl | rfl
          · intro y hy
            have := filter_ssids_mem _ _ y hy
            exact ⟨this.1, hsig ▸ this.2⟩
          · intro y hy; exact hssid _ (by simp [ssid_buckets]) y hy
          · intro y hy; exact hssid _ (by simp [ssid_buckets]) y hy
          · intro y hy; exact hssid _ (by simp [ssid_buckets]) y hy

theorem digitVal_digitChar (d : Nat) (h : d < 10) : digitVal (digitChar d) = some d := by
  interval_cases d <;> decide

theorem read2_pad2 (n : Nat) (h : n < 100) :
    read2 (digitChar (n / 10 % 10)) (digitChar (n % 10)) = some n := by
  rw [read2, digitVal_digitChar _ (Nat.mod_lt _ (by norm_num)),
      digitVal_digitChar _ (Nat.mod_lt _ (by norm_num))]
  simp only [Option.bind_eq_bind, Option.some_bind]
  congr 1
  omega

theorem read4_pad4 (n : Nat) (h : n < 10000) :
    read4 (digitChar (n / 1000 % 10)) (digitChar (n / 100 % 10))
      (digitChar (n / 10 % 10)) (digitChar (n % 10)) = some n := by
  rw [read4, digitVal_digitChar _ (Nat.mod_lt _ (by norm_num)),
      digitVal_digitChar _ (Nat.mod_lt _ (by norm_num)),
      digitVal_digitChar _ (Nat.mod_lt _ (by norm_num)),
      digitVal_digitChar _ (Nat.mod_lt _ (by norm_num))]
  simp only [Option.bind_eq_bind, Option.some_bind]
  congr 1
  omega

theorem strptime_strftime (t : PyDateTime) (hv : ValidPyDateTime t) :
    strptime_timestamp (strftime_timestamp t) =
      some ⟨t.year, t.month, t.day, t.hour, t.minute, t.second, 0⟩ := by
  obtain ⟨h1, h2, h3, h4, h5, h6, h7, h8, h9⟩ := hv
  have hdm : days_in_month t.year t.month ≤ 31 := by
    unfold days_in_month; split_ifs <;> omega
  rw [strftime_timestamp, strptime_timestamp]
  simp only [pad2, pad4, List.cons_append, List.nil_append]
  rw [read2_pad2 t.month (by omega), read2_pad2 t.day (by omega),
      read4_pad4 t.year (by omega), read2_pad2 t.hour (by omega),
      read2_pad2 t.minute (by omega), read2_pad2 t.second (by omega)]
  simp only [Option.bind_eq_bind, Option.some_bind]
  rw [if_pos]
  exact ⟨h1, h2, h3, h4, h5, h6, h7, h8, h9⟩

/-- C2: for a current-activity MAC not in the MAC ignore set, MAC
tracking emits exactly one device-reappeared event per older band
containing the MAC, none for a band not containing it, and none for the
newest `[0,5)` band even when the MAC is in it; SSID history checking
obeys the same per-band rule for repeated-probe events. -/
theorem detection_one_event_per_matching_band (st : MonitorState) (mac ssid : String)
    (hmac : pyUpper mac ∉ st.ignore_list) :
    ((process_mac_tracking st mac).count (MonitorEvent.reappeared mac Band.fiveTen) =
       if mac ∈ st.five_ten_min_ago_macs then 1 else 0) ∧
    ((process_mac_tracking st mac).count (MonitorEvent.reappeared mac Band.tenFifteen) =
       if mac ∈ st.ten_fifteen_min_ago_macs then 1 else 0) ∧
    ((process_mac_tracking st mac).count (MonitorEvent.reappeared mac Band.fifteenTwenty) =
       if mac ∈ st.fifteen_twenty_min_ago_macs then 1 else 0) ∧
    ((process_mac_tracking st mac).count (MonitorEvent.reappeared mac Band.pastFive) = 0) ∧
    ((check_ssid_history st ssid).count (MonitorEvent.repeatedProbe ssid Band.fiveTen) =
       if ssid ∈ st.five_ten_min_ago_ssids then 1 else 0) ∧
    ((check_ssid_history st ssid).count (MonitorEvent.repeatedProbe ssid Band.tenFifteen) =
       if ssid ∈ st.ten_fifteen_min_ago_ssids then 1 else 0) ∧
    ((check_ssid_history st ssid).count (MonitorEvent.repeatedProbe ssid Band.fifteenTwenty) =
       if ssid ∈ st.fifteen_twenty_min_ago_ssids then 1 else 0) ∧
    ((check_ssid_history st ssid).count (MonitorEvent.repeatedProbe ssid Band.pastFive) = 0) := by
  unfold process_mac_tracking check_ssid_history
  rw [if_neg hmac]
  by_cases h1 : mac ∈ st.five_ten_min_ago_macs <;>
    by_cases h2 : mac ∈ st.ten_fifteen_min_ago_macs <;>
      by_cases h3 : mac ∈ st.fifteen_twenty_min_ago_macs <;>
        by_cases h4 : ssid ∈ st.five_ten_min_ago_ssids <;>
          by_cases h5 : ssid ∈ st.ten_fifteen_min_ago_ssids <;>
            by_cases h6 : ssid ∈ st.fifteen_twenty_min_ago_ssids <;>
              simp [h1, h2, h3, h4, h5, h6, List.count_append, List.count_cons, List.count_nil]

/-- C2 witness: on `sampleRotationState` with MAC `"BB"` (present only
in the `[5,10)` MAC band) and SSID `"SB"` (present only in the `[5,10)`
SSID band). -/
theorem detection_one_event_per_matching_band_witness :
    pyUpper "BB" ∉ sampleRotationState.ignore_list ∧
    (((process_mac_tracking sampleRotationState "BB").count
        (MonitorEvent.reappeared "BB" Band.fiveTen) =
       if "BB" ∈ sampleRotationState.five_ten_min_ago_macs then 1 else 0) ∧
     ((process_mac_tracking sampleRotationState "BB").count
        (MonitorEvent.reappeared "BB" Band.tenFifteen) =
       if "BB" ∈ sampleRotationState.ten_fifteen_min_ago_macs then 1 else 0) ∧
     ((process_mac_tracking sampleRotationState "BB").count
        (MonitorEvent.reappeared "BB" Band.fifteenTwenty) =
       if "BB" ∈ sampleRotationState.fifteen_twenty_min_ago_macs then 1 else 0) ∧
     ((process_mac_tracking sampleRotationState "BB").count
        (MonitorEvent.reappeared "BB" Band.pastFive) = 0) ∧
     ((check_ssid_history sampleRotationState "SB").count
        (MonitorEvent.repeatedProbe "SB" Band.fiveTen) =
       if "SB" ∈ sampleRotationState.five_ten_min_ago_ssids then 1 else 0) ∧
     ((check_ssid_history sampleRotationState "SB").count
        (MonitorEvent.repeatedProbe "SB" Band.tenFifteen) =
       if "SB" ∈ sampleRotationState.ten_fifteen_min_ago_ssids then 1 else 0) ∧
     ((check_ssid_history sampleRotationState "SB").count
        (MonitorEvent.repeatedProbe "SB" Band.fifteenTwenty) =
       if "SB" ∈ sampleRotationState.fifteen_twenty_min_ago_ssids then 1 else 0) ∧
     ((check_ssid_history sampleRotationState "SB").count
        (MonitorEvent.repeatedProbe "SB" Band.pastFive) = 0)) :=
  ⟨by decide,
   detection_one_event_per_matching_band sampleRotationState "BB" "SB" (by decide)⟩

/-- C4: for a current sighting with a truthy MAC whose probed SSID is
non-empty and not ignore-listed, exactly one Probe Event is emitted
(regardless of which detection events also fire), and it precedes every
derived detection event in the sighting's event list. -/
theorem probe_event_emitted_once_and_first (st : MonitorState) (d : DeviceRow) (ssid : String)
    (hmac : d.devmac ≠ "") (hssid : extract_probe_ssid d.device_data = some ssid)
    (hig : ssid ∉ st.ssid_ignore_list) :
    (process_device st d).filter MonitorEvent.isProbe =
      [MonitorEvent.ssidProbe ssid d.devmac] ∧
    (process_device st d).head? = some (MonitorEvent.ssidProbe ssid d.devmac) := by
  unfold process_device process_probe_requests
  rw [if_neg hmac, hssid]
  rw [show (match some ssid with
      | none => ([] : List MonitorEvent)
      | some s => if s ∈ st.ssid_ignore_list then []
          else MonitorEvent.ssidProbe s d.devmac :: check_ssid_history st s) =
      if ssid ∈ st.ssid_ignore_list then []
        else MonitorEvent.ssidProbe ssid d.devmac :: check_ssid_history st ssid from rfl]
  rw [if_neg hig]
  constructor
  · rw [List.cons_append, List.filter_cons]
    simp only [MonitorEvent.isProbe, if_pos]
    rw [List.filter_append]
    rw [List.filter_eq_nil_iff.mpr (by simpa using check_ssid_history_no_probe st ssid),
        List.filter_eq_nil_iff.mpr (by simpa using process_mac_tracking_no_probe st d.devmac)]
    rfl
  · simp

/-- C4 witness: on `sampleRotationState` with the concrete sighting
`sampleProbeRow` probing `"CorpWiFi"`. -/
theorem probe_event_emitted_once_and_first_witness :
    sampleProbeRow.devmac ≠ "" ∧
    extract_probe_ssid sampleProbeRow.device_data = some "CorpWiFi" ∧
    "CorpWiFi" ∉ sampleRotationState.ssid_ignore_list ∧
    ((process_device sampleRotationState sampleProbeRow).filter MonitorEvent.isProbe =
       [MonitorEvent.ssidProbe "CorpWiFi" sampleProbeRow.devmac] ∧
     (process_device sampleRotationState sampleProbeRow).head? =
       some (MonitorEvent.ssidProbe "CorpWiFi" sampleProbeRow.devmac)) :=
  ⟨by decide, rfl, by decide,
   probe_event_emitted_once_and_first sampleRotationState sampleProbeRow "CorpWiFi"
     (by decide) rfl (by decide)⟩

/-- C7: in every reachable monitor state, a MAC in the raw ignore list
never matches any MAC bucket element even case-insensitively and never
yields a device-reappeared event for any casing; an SSID in the SSID
ignore list is never an element of any SSID bucket and a sighting
probing it yields no event at all. -/
theorem ignored_identities_never_tracked (ign ssign : List String) (st : MonitorState)
    (h : Reachable ign ssign st) :
    (∀ m ∈ ign, ∀ b ∈ mac_buckets st, ∀ y ∈ b, pyUpper y ≠ pyUpper m) ∧
    (∀ m ∈ ign, ∀ mac, pyUpper mac = pyUpper m → process_mac_tracking st mac = []) ∧
    (∀ s ∈ ssign, ∀ b ∈ ssid_buckets st, s ∉ b) ∧
    (∀ s ∈ ssign, ∀ dd mac, extract_probe_ssid dd = some s →
      process_probe_requests st dd mac = []) := by
  obtain ⟨hig, hsig, hmac, hssid⟩ := reachable_state_invariant ign ssign st h
  refine ⟨?_, ?_, ?_, ?_⟩
  · intro m hm b hb y hy heq
    obtain ⟨hupy, hynot⟩ := hmac b hb y hy
    have hy2 : y = pyUpper m := by rw [← hupy, heq]
    exact hynot (hy2 ▸ List.mem_map_of_mem pyUpper hm)
  · intro m hm mac hemac
    unfold process_mac_tracking
    rw [if_pos]
    rw [hig, hemac]
    exact List.mem_map_of_mem pyUpper hm
  · intro s hs b hb hsb
    exact (hssid b hb s hsb).2 hs
  · intro s hs dd mac hdd
    unfold process_probe_requests
    rw [hdd]
    rw [show (match some s with
        | none => ([] : List MonitorEvent)
        | some ssid => if ssid ∈ st.ssid_ignore_list then []
            else MonitorEvent.ssidProbe ssid mac :: check_ssid_history st ssid) =
        if s ∈ st.ssid_ignore_list then []
          else MonitorEvent.ssidProbe s mac :: check_ssid_history st s from rfl]
    rw [if_pos]
    rw [hsig]
    exact hs

/-- C7 witness: the state reached by initializing a monitor constructed
with ignore lists `["aa:bb:cc:dd:ee:ff"]` and `["HomeNet"]` from
`sampleDb` at `sampleBoundaries`. -/
theorem ignored_identities_never_tracked_witness :
    Reachable ["aa:bb:cc:dd:ee:ff"] ["HomeNet"]
      (initialize_tracking_lists
        (mkSecureCYTMonitor ["aa:bb:cc:dd:ee:ff"] ["HomeNet"]) sampleDb sampleBoundaries) ∧
    ((∀ m ∈ ["aa:bb:cc:dd:ee:ff"],
        ∀ b ∈ mac_buckets (initialize_tracking_lists
          (mkSecureCYTMonitor ["aa:bb:cc:dd:ee:ff"] ["HomeNet"]) sampleDb sampleBoundaries),
          ∀ y ∈ b, pyUpper y ≠ pyUpper m) ∧
     (∀ m ∈ ["aa:bb:cc:dd:ee:ff"], ∀ mac, pyUpper mac = pyUpper m →
        process_mac_tracking (initialize_tracking_lists
          (mkSecureCYTMonitor ["aa:bb:cc:dd:ee:ff"] ["HomeNet"]) sampleDb sampleBoundaries)
          mac = []) ∧
     (∀ s ∈ ["HomeNet"],
        ∀ b ∈ ssid_buckets (initialize_tracking_lists
          (mkSecureCYTMonitor ["aa:bb:cc:dd:ee:ff"] ["HomeNet"]) sampleDb sampleBoundaries),
          s ∉ b) ∧
     (∀ s ∈ ["HomeNet"], ∀ dd mac, extract_probe_ssid dd = some s →
        process_probe_requests (initialize_tracking_lists
          (mkSecureCYTMonitor ["aa:bb:cc:dd:ee:ff"] ["HomeNet"]) sampleDb sampleBoundaries)
          dd mac = [])) :=
  ⟨Reachable.init sampleDb sampleBoundaries,
   ignored_identities_never_tracked ["aa:bb:cc:dd:ee:ff"] ["HomeNet"] _
     (Reachable.init sampleDb sampleBoundaries)⟩

/-- C8: a sighting whose structured metadata parsing raises (a caught
`AttributeError`) is skipped — its probe processing contributes no
events — and every remaining sighting in the batch, before or after it,
is processed exactly as usual. -/
theorem batch_continues_after_metadata_fault (st : MonitorState)
    (pre post : List DeviceRow) (d : DeviceRow)
    (hf : d.device_data = DeviceDataVal.truthyNonDict) (hm : d.devmac ≠ "") :
    process_batch st (pre ++ d :: post) =
      process_batch st pre ++ process_mac_tracking st d.devmac ++ process_batch st post ∧
    process_probe_requests st d.device_data d.devmac = [] := by
  have hpr : process_probe_requests st d.device_data d.devmac = [] := by
    rw [hf]; rfl
  constructor
  · rw [process_batch_append]
    rw [show process_batch st (d :: post) = process_device st d ++ process_batch st post from rfl]
    unfold process_device
    rw [if_neg hm, hpr, List.nil_append, List.append_assoc]
  · exact hpr

/-- C8 witness: a two-element batch whose first sighting has faulty
metadata; the second sighting is still processed. -/
theorem batch_continues_after_metadata_fault_witness :
    sampleFaultyRow.device_data = DeviceDataVal.truthyNonDict ∧
    sampleFaultyRow.devmac ≠ "" ∧
    (process_batch sampleRotationState ([] ++ sampleFaultyRow :: [sampleGoodRow]) =
       process_batch sampleRotationState [] ++
         process_mac_tracking sampleRotationState sampleFaultyRow.devmac ++
         process_batch sampleRotationState [sampleGoodRow] ∧
     process_probe_requests sampleRotationState sampleFaultyRow.device_data
       sampleFaultyRow.devmac = []) :=
  ⟨rfl, by decide,
   batch_continues_after_metadata_fault sampleRotationState [] [sampleGoodRow]
     sampleFaultyRow rfl (by decide)⟩

/-- C9: encoding an SSID probe event yields the record with type
`"ssid-probe"`, the ssid and mac fields, and the
`MM/DD/YYYY HH:MM:SS`-formatted timestamp; for an event whose (valid)
timestamp has whole-second precision, decoding the encoded record
reconstructs the original event. -/
theorem encode_decode_ssid_probe_roundtrip (e : SSIDProbeEvent)
    (hv : ValidPyDateTime e.timestamp) (hms : e.timestamp.microsecond = 0) :
    encode_event e = { type := "ssid-probe", ssid := e.ssid, mac := e.mac,
                       timestamp := strftime_timestamp e.timestamp } ∧
    decode_event (encode_event e) = some e := by
  refine ⟨rfl, ?_⟩
  unfold decode_event encode_event
  simp only []
  rw [strptime_strftime _ hv]
  simp only [Option.bind_eq_bind, Option.some_bind]
  rw [if_pos trivial]
  obtain ⟨t, ssid, mac⟩ := e
  obtain ⟨y, mo, dy, hr, mi, se, ms⟩ := t
  have hms2 : ms = 0 := hms
  subst hms2
  rfl

/-- C9 witness: the concrete event `sampleProbeEvent`. -/
theorem encode_decode_ssid_probe_roundtrip_witness :
    ValidPyDateTime sampleProbeEvent.timestamp ∧
    sampleProbeEvent.timestamp.microsecond = 0 ∧
    (encode_event sampleProbeEvent =
       { type := "ssid-probe", ssid := sampleProbeEvent.ssid, mac := sampleProbeEvent.mac,
         timestamp := strftime_timestamp sampleProbeEvent.timestamp } ∧
     decode_event (encode_event sampleProbeEvent) = some sampleProbeEvent) :=
  ⟨by decide, rfl,
   encode_decode_ssid_probe_roundtrip sampleProbeEvent (by decide) rfl⟩

/-- C10: in every reachable monitor state, every element of every MAC
bucket equals its own uppercasing, and the detection membership test —
which does not uppercase the current MAC — therefore never fires for a
MAC that is not already uppercase-normalized. -/
theorem mac_buckets_upper_normalized (ign ssign : List String) (st : MonitorState)
    (h : Reachable ign ssign st) :
    (∀ b ∈ mac_buckets st, ∀ y ∈ b, pyUpper y = y) ∧
    (∀ mac, pyUpper mac ≠ mac → process_mac_tracking st mac = []) := by
  obtain ⟨hig, hsig, hmac, hssid⟩ := reachable_state_invariant ign ssign st h
  refine ⟨fun b hb y hy => (hmac b hb y hy).1, ?_⟩
  intro mac hne
  unfold process_mac_tracking
  split
  · rfl
  · have h5 : mac ∉ st.five_ten_min_ago_macs :=
      fun hmem => hne ((hmac _ (by simp [mac_buckets]) mac hmem).1)
    have h10 : mac ∉ st.ten_fifteen_min_ago_macs :=
      fun hmem => hne ((hmac _ (by simp [mac_buckets]) mac hmem).1)
    have h15 : mac ∉ st.fifteen_twenty_min_ago_macs :=
      fun hmem => hne ((hmac _ (by simp [mac_buckets]) mac hmem).1)
    rw [if_neg h5, if_neg h10, if_neg h15]
    rfl

/-- C10 witness: the state reached by initializing a monitor with empty
ignore lists from `sampleDb` at `sampleBoundaries`. -/
theorem mac_buckets_upper_normalized_witness :
    Reachable [] []
      (initialize_tracking_lists (mkSecureCYTMonitor [] []) sampleDb sampleBoundaries) ∧
    ((∀ b ∈ mac_buckets
        (initialize_tracking_lists (mkSecureCYTMonitor [] []) sampleDb sampleBoundaries),
        ∀ y ∈ b, pyUpper y = y) ∧
     (∀ mac, pyUpper mac ≠ mac →
        process_mac_tracking
          (initialize_tracking_lists (mkSecureCYTMonitor [] []) sampleDb sampleBoundaries)
          mac = [])) :=
  ⟨Reachable.init sampleDb sampleBoundaries,
   mac_buckets_upper_normalized [] [] _ (Reachable.init sampleDb sampleBoundaries)⟩
